import Mathlib

/-!
Verification of `udp_servo_control.c` (Beaglebone Blue UDP throttle/rudder
servo control).

The development shallowly embeds the C program: compile-time constants become
rational constants, the per-cycle pulse computation of the actuation loop in
`main` becomes pure functions on rationals, the parsing performed by
`commsThread` on a received datagram becomes a function from the delivered
buffer contents to a parse result (with an explicit `crash` outcome marking
the undefined behaviour of calling `strtod` with a NULL pointer), and the
mutex-serialised accesses to the shared throttle/rudder globals become an
interleaving of atomic publish/read operations.

C doubles are modelled as rationals.  All arithmetic appearing in the program
(division by the constants 100, 200, multiplication by the constant ranges,
addition of constants, negation) is exact in IEEE double precision for the
values of interest, so the rational model is faithful on the stated
properties.
-/

namespace UdpServoControl

/-! ## Compile-time constants (lines 40-60 of `udp_servo_control.c`) -/

def UDP_PORT : Nat := 2031

def THROTTLE_SERVO : Nat := 0

def RUDDER_SERVO : Nat := 1

def THROTTLE_MIN_PULSE_LENGTH_USEC : ℚ := 900

def THROTTLE_MAX_PULSE_LENGTH_USEC : ℚ := 2100

def RUDDER_MIN_PULSE_LENGTH_USEC : ℚ := 900

def RUDDER_MAX_PULSE_LENGTH_USEC : ℚ := 2100

def SERVO_PULSE_RATE_HZ : Nat := 50

def COMMS_TIMEOUT_SEC : Nat := 5

def THROTTLE_RANGE_USEC : ℚ :=
  THROTTLE_MAX_PULSE_LENGTH_USEC - THROTTLE_MIN_PULSE_LENGTH_USEC

def RUDDER_RANGE_USEC : ℚ :=
  RUDDER_MAX_PULSE_LENGTH_USEC - RUDDER_MIN_PULSE_LENGTH_USEC

def RUDDER_CENTRE_PULSE_LENGTH_USEC : ℚ :=
  (RUDDER_MAX_PULSE_LENGTH_USEC - RUDDER_MIN_PULSE_LENGTH_USEC) / 2 +
    RUDDER_MIN_PULSE_LENGTH_USEC

/-! ## Actuation loop pulse computation (lines 186-199 of `main`)

Each control cycle reads the demand pair `(tmpThrottle, tmpRudder)` and
computes the two pulse widths.  The computation is a straight-line
translation of the two `if` statements. -/

/-- Lines 188-193: `throttle_usec` starts at the minimum pulse length and is
overwritten with the linear map when the throttle demand is inside
`[0, 100]`. -/
def throttle_usec (tmpThrottle : ℚ) : ℚ :=
  if 0 ≤ tmpThrottle ∧ tmpThrottle ≤ 100 then
    tmpThrottle / 100 * THROTTLE_RANGE_USEC + THROTTLE_MIN_PULSE_LENGTH_USEC
  else
    THROTTLE_MIN_PULSE_LENGTH_USEC

/-- Lines 194-199: `rudder_usec` starts at the centre pulse length and is
overwritten with the linear map when the rudder demand is inside
`[-100, 100]`. -/
def rudder_usec (tmpRudder : ℚ) : ℚ :=
  if -100 ≤ tmpRudder ∧ tmpRudder ≤ 100 then
    tmpRudder / 200 * RUDDER_RANGE_USEC + RUDDER_CENTRE_PULSE_LENGTH_USEC
  else
    RUDDER_CENTRE_PULSE_LENGTH_USEC

/-- One body of the actuation loop (lines 186-204): from a demand snapshot
`(throttle, rudder)` to the pair of emitted pulse widths
`(throttle_usec, rudder_usec)`.  The body is a total function: no demand
value halts the loop. -/
def actIteration (d : ℚ × ℚ) : ℚ × ℚ :=
  (throttle_usec d.1, rudder_usec d.2)

/-! ## `strtod` model

`commsThread` parses each comma token with the C library function `strtod`.
The model covers the decimal forms of `strtod`: optional leading whitespace,
an optional sign, a nonempty digit sequence optionally containing a radix
point, and an optional exponent part.  (The hexadecimal and
infinity/nan forms of `strtod` are not exercised by any claim and are not
modelled.)  When no conversion can be performed, `strtod` returns `0.0`;
`strtodModel` does the same. -/

/-- The six characters accepted by C `isspace`, which `strtod` skips. -/
def isSpaceC (c : Char) : Bool :=
  c = ' ' ∨ c = '\t' ∨ c = '\n' ∨ c = '\x0b' ∨ c = '\x0c' ∨ c = '\r'

/-- Drop the leading C-whitespace characters. -/
def skipSpace : List Char → List Char
  | [] => []
  | c :: cs => if isSpaceC c then skipSpace cs else c :: cs

/-- Consume an optional sign; returns (negative?, rest). -/
def parseSign : List Char → Bool × List Char
  | '-' :: cs => (true, cs)
  | '+' :: cs => (false, cs)
  | cs => (false, cs)

/-- Consume a maximal run of decimal digits; returns (digits, rest). -/
def takeDigits : List Char → List Char × List Char
  | [] => ([], [])
  | c :: cs =>
    if c.isDigit then
      let p := takeDigits cs
      (c :: p.1, p.2)
    else ([], c :: cs)

/-- Numeric value of a digit run. -/
def digitsToNat (ds : List Char) : Nat :=
  ds.foldl (fun a c => a * 10 + (c.toNat - 48)) 0

/-- Consume an optional exponent part (`e`/`E`, optional sign, digits).
Returns ((negative exponent?, exponent magnitude), rest); an `e` that is not
followed by at least one digit is not consumed, as in `strtod`. -/
def parseExpPart : List Char → (Bool × Nat) × List Char
  | [] => ((false, 0), [])
  | c :: cs =>
    if c = 'e' ∨ c = 'E' then
      let s := parseSign cs
      let d := takeDigits s.2
      if d.1 = [] then ((false, 0), c :: cs)
      else ((s.1, digitsToNat d.1), d.2)
    else ((false, 0), c :: cs)

/-- Scale a mantissa by a signed power of ten. -/
def applyExp (mant : ℚ) (e : Bool × Nat) : ℚ :=
  if e.1 then mant / 10 ^ e.2 else mant * 10 ^ e.2

/-- The conversion performed by `strtod` on a character sequence: `none` when
no conversion can be performed, otherwise the converted value together with
the unconsumed suffix (the position `strtod` stores through `endptr`). -/
def strtodM (cs : List Char) : Option (ℚ × List Char) :=
  let cs1 := skipSpace cs
  let sg := parseSign cs1
  let ip := takeDigits sg.2
  let fp :=
    match ip.2 with
    | '.' :: rest => takeDigits rest
    | _ => ([], ip.2)
  if ip.1 = [] ∧ fp.1 = [] then none
  else
    let mant : ℚ :=
      (digitsToNat ip.1 : ℚ) + (digitsToNat fp.1 : ℚ) / 10 ^ fp.1.length
    let ex := parseExpPart fp.2
    let mag := applyExp mant ex.1
    some ((if sg.1 then -mag else mag), ex.2)

/-- The value returned by `strtod(s, &eptr)`: the converted value, or `0.0`
when no conversion can be performed.  (`commsThread` never inspects `eptr`.) -/
def strtodModel (s : String) : ℚ :=
  match strtodM s.data with
  | some p => p.1
  | none => 0

/-- Full-token conversion: `some v` exactly when `strtod` converts the whole
token `s` to `v` (a well-formed decimal number with nothing left over). -/
def strtodFull (s : String) : Option ℚ :=
  match strtodM s.data with
  | some (v, []) => some v
  | _ => none

/-! ## Receiver parsing (lines 109-138 of `commsThread`)

Each loop iteration performs `recvfrom` and, when `nbytes > 0`,
null-terminates the buffer and tokenises it with `strtok(buffer, ",")`
followed by `strtok(NULL, ",")`, feeding each token pointer to `strtod`.
`strtok` skips runs of delimiters, so its token sequence is the list of
nonempty substrings of the buffer between commas; when it finds no (further)
token it returns NULL, and the code then passes that NULL pointer straight
to `strtod` — undefined behaviour (a NULL dereference in practice), which the
model records as `crash`. -/

/-- Single left-to-right pass of `strtok` over the buffer characters: `acc`
holds the (reversed) characters of the token being scanned; a comma ends the
current token, runs of commas produce no empty tokens. -/
def tokensAux : List Char → List Char → List (List Char)
  | acc, [] => if acc = [] then [] else [acc.reverse]
  | acc, c :: cs =>
    if c = ',' then
      if acc = [] then tokensAux [] cs else acc.reverse :: tokensAux [] cs
    else tokensAux (c :: acc) cs

/-- The token sequence produced by repeated `strtok(·, ",")` on a string:
the maximal nonempty comma-free substrings, in order. -/
def strtokTokens (s : String) : List String :=
  (tokensAux [] s.data).map String.mk

/-- Outcome of the parse block, lines 120-127. -/
inductive ParseResult
  | crash
  | ok (tmpThrottle tmpRudder : ℚ)
deriving DecidableEq

/-- Lines 120-127 applied to the delivered buffer contents: the first two
`strtok` tokens go through `strtod`; if either `strtok` call returns NULL the
subsequent `strtod(NULL, &eptr)` is undefined behaviour (`crash`).  Tokens
beyond the second are never requested. -/
def commsParse (s : String) : ParseResult :=
  match strtokTokens s with
  | t :: r :: _ => ParseResult.ok (strtodModel t) (strtodModel r)
  | _ => ParseResult.crash

/-- One iteration of the receive loop, lines 109-138, as a function from the
`recvfrom` outcome to the demand pair published under the mutex (lines
134-138).  `none` as input stands for `nbytes <= 0` (timeout, error, or a
zero-length datagram); `some s` stands for `nbytes > 0` with delivered
buffer contents `s`.  The result is `none` when the iteration runs into the
undefined `strtod(NULL)` call and publishes nothing. -/
def commsIteration (recv : Option String) : Option (ℚ × ℚ) :=
  match recv with
  | none => some (0, 0)
  | some s =>
    match commsParse s with
    | ParseResult.ok t r => some (t, r)
    | ParseResult.crash => none

/-! ## Receive buffer (lines 112-122 of `commsThread`)

`char buffer[20]` receives at most `sizeof(buffer) = 20` bytes; the code then
stores a null terminator at `buffer[nbytes]`. -/

/-- Value of `sizeof(buffer)` for `char buffer[20]` (line 112). -/
def BUFFER_SIZE : Nat := 20

/-- Number of bytes `recvfrom(udpsocket, buffer, sizeof(buffer), 0, ...)`
delivers for a datagram of `datagramLen` bytes: the payload, truncated to the
buffer size (line 116). -/
def recvfromLen (datagramLen : Nat) : Nat :=
  min datagramLen BUFFER_SIZE

/-- The index of the null-terminator store `buffer[nbytes] = 0` (line 122). -/
def nullStoreIndex (nbytes : Nat) : Nat :=
  nbytes

/-! ## Comms thread setup (lines 76-106 of `commsThread`) and process exit
(lines 146-221 of `main`)

On each setup failure `commsThread` prints a diagnostic on stderr and
executes `return NULL`, which terminates only the comms thread.  `main`
returns `-1` only when `rc_adc_init` or `rc_servo_init` fails; after the
loop it returns `0`.  No call to `exit` exists anywhere in the program. -/

/-- What the setup phase of `commsThread` does, as a function of the
outcomes of `socket`, the two `setsockopt` calls, and `bind`. -/
inductive CommsSetupResult
  | proceed
  | threadReturn (diag : String)
deriving DecidableEq

/-- Lines 76-106: each failed call prints its diagnostic and returns NULL
from the thread function (no process exit). -/
def commsSetup (socketOk cfgReuseOk cfgTimeoutOk bindOk : Bool) : CommsSetupResult :=
  if socketOk = false then CommsSetupResult.threadReturn "create socket failed"
  else if cfgReuseOk = false then CommsSetupResult.threadReturn "configure socket failed 1"
  else if cfgTimeoutOk = false then CommsSetupResult.threadReturn "configure socket failed 2"
  else if bindOk = false then CommsSetupResult.threadReturn "bind socket failed"
  else CommsSetupResult.proceed

/-- The return value of `main` as a function of every outcome that can reach
one of its `return` statements: `-1` at lines 154 and 163, else `0` at line
220.  The outcome of the comms-thread socket setup does not occur among the
arguments because no `return` of `main` depends on it. -/
def mainExitCode (adcInitOk servoInitOk : Bool) : Int :=
  if adcInitOk = false then -1
  else if servoInitOk = false then -1
  else 0

/-! ## Shutdown sequence (lines 209-219 of `main`)

Once `running` becomes 0 the actuation loop in `main` falls through to a
straight-line epilogue; this is the only shutdown path out of the RUNNING
state. -/

/-- Observable actions of `main` after its control loop exits. -/
inductive Ev
  | join
  | pulse (channel : Nat) (usec : ℚ)
  | sleepUsec (t : Nat)
  | powerRail (enabled : Bool)
  | cleanup
deriving DecidableEq

/-- Lines 209-219 in order: join the comms thread, send the neutral pulse to
each channel, sleep 50 ms, disable the power rail, clean up. -/
def shutdownTrace : List Ev :=
  [Ev.join,
   Ev.pulse THROTTLE_SERVO THROTTLE_MIN_PULSE_LENGTH_USEC,
   Ev.pulse RUDDER_SERVO RUDDER_CENTRE_PULSE_LENGTH_USEC,
   Ev.sleepUsec 50000,
   Ev.powerRail false,
   Ev.cleanup]

/-! ## Shared demand state (lines 62-64, 134-138, 181-185)

The globals `throttle, rudder` are accessed only inside
`pthread_mutex_lock(&mutex) ... pthread_mutex_unlock(&mutex)` critical
sections: the writer stores both fields in one section (lines 135-138) and
the reader copies both fields in one section (lines 182-185).  The mutex
therefore serialises every execution into an interleaving of atomic
publish and read operations on the pair, which is what `runShared`
replays. -/

/-- A critical section on the shared state: a publish of a full demand pair
by the comms thread, or a read of the pair by the actuation loop. -/
inductive SharedOp
  | publish (d : ℚ × ℚ)
  | read
deriving DecidableEq

/-- Replay a serialised schedule of critical sections starting from state
`st`; returns the list of pairs the reads observe, in order. -/
def runShared : ℚ × ℚ → List SharedOp → List (ℚ × ℚ)
  | _, [] => []
  | _, SharedOp.publish d :: rest => runShared d rest
  | st, SharedOp.read :: rest => st :: runShared st rest


/-! ## Theorems -/

/-- If `strtod` converts the whole token `s` to `v`, then the value the code
reads back from `strtod` is `v`. -/
theorem strtodFull_strtodModel {s : String} {v : ℚ} (h : strtodFull s = some v) :
    strtodModel s = v := by
  unfold strtodFull at h
  unfold strtodModel
  cases hm : strtodM s.data with
  | none => simp [hm] at h
  | some p =>
    obtain ⟨val, rest⟩ := p
    cases rest with
    | nil =>
      simp only [hm, Option.some.injEq] at h
      simpa using h
    | cons a l => simp [hm] at h

/-- Concrete conversion: `strtod` converts the whole token `"75"` to `75`. -/
theorem strtodFull_num75 : strtodFull "75" = some 75 := by
  have h : strtodFull "75" =
      some ((((75 : ℕ) : ℚ) + ((0 : ℕ) : ℚ) / 10 ^ (0 : ℕ)) * 10 ^ (0 : ℕ)) := rfl
  rw [h]
  norm_num

/-- Concrete conversion: `strtod` converts the whole token `"-20"` to `-20`. -/
theorem strtodFull_negTwenty : strtodFull "-20" = some (-20) := by
  have h : strtodFull "-20" =
      some (-((((20 : ℕ) : ℚ) + ((0 : ℕ) : ℚ) / 10 ^ (0 : ℕ)) * 10 ^ (0 : ℕ))) := rfl
  rw [h]
  norm_num

/-- Claim C5: for throttle demand `v` in `[0, 100]` the emitted pulse is
`min_usec + (v/100)*(max_usec - min_usec)`; `pulse 0 = min_usec`,
`pulse 100 = max_usec`, the map is monotone on `[0, 100]`, and any demand
outside `[0, 100]` yields `min_usec` (the loop body `throttle_usec` is a
total function, so no demand halts the loop). -/
theorem C5_throttle_mapping :
    (∀ v : ℚ, 0 ≤ v → v ≤ 100 →
      throttle_usec v =
        THROTTLE_MIN_PULSE_LENGTH_USEC +
          v / 100 * (THROTTLE_MAX_PULSE_LENGTH_USEC - THROTTLE_MIN_PULSE_LENGTH_USEC)) ∧
    throttle_usec 0 = THROTTLE_MIN_PULSE_LENGTH_USEC ∧
    throttle_usec 100 = THROTTLE_MAX_PULSE_LENGTH_USEC ∧
    (∀ u v : ℚ, 0 ≤ u → u ≤ v → v ≤ 100 → throttle_usec u ≤ throttle_usec v) ∧
    (∀ v : ℚ, v < 0 ∨ 100 < v → throttle_usec v = THROTTLE_MIN_PULSE_LENGTH_USEC) := by
  refine ⟨?_, ?_, ?_, ?_, ?_⟩
  · intro v h0 h1
    simp only [throttle_usec, if_pos (And.intro h0 h1), THROTTLE_RANGE_USEC,
      THROTTLE_MIN_PULSE_LENGTH_USEC, THROTTLE_MAX_PULSE_LENGTH_USEC]
    ring
  · norm_num [throttle_usec, THROTTLE_RANGE_USEC, THROTTLE_MIN_PULSE_LENGTH_USEC]
  · norm_num [throttle_usec, THROTTLE_RANGE_USEC, THROTTLE_MIN_PULSE_LENGTH_USEC,
      THROTTLE_MAX_PULSE_LENGTH_USEC]
  · intro u v hu huv hv
    simp only [throttle_usec, if_pos (And.intro hu (le_trans huv hv)),
      if_pos (And.intro (le_trans hu huv) hv), THROTTLE_RANGE_USEC,
      THROTTLE_MIN_PULSE_LENGTH_USEC, THROTTLE_MAX_PULSE_LENGTH_USEC]
    linarith
  · intro v hv
    have hneg : ¬ (0 ≤ v ∧ v ≤ 100) := by
      rcases hv with h | h
      · exact fun hc => absurd hc.1 (not_le.mpr h)
      · exact fun hc => absurd hc.2 (not_le.mpr h)
    simp only [throttle_usec, if_neg hneg]

/-- Witness for C5 at concrete demands 50 (in range) and 150 (out of
range). -/
theorem C5_witness :
    (0 : ℚ) ≤ 50 ∧ (50 : ℚ) ≤ 100 ∧
    throttle_usec 50 =
      THROTTLE_MIN_PULSE_LENGTH_USEC +
        50 / 100 * (THROTTLE_MAX_PULSE_LENGTH_USEC - THROTTLE_MIN_PULSE_LENGTH_USEC) ∧
    throttle_usec 150 = THROTTLE_MIN_PULSE_LENGTH_USEC :=
  ⟨by norm_num, by norm_num,
   C5_throttle_mapping.1 50 (by norm_num) (by norm_num),
   C5_throttle_mapping.2.2.2.2 150 (Or.inr (by norm_num))⟩

/-- Claim C6: for rudder demand `v` in `[-100, 100]` the emitted pulse is
`centre_usec + (v/200)*(max_usec - min_usec)` with
`centre_usec = min_usec + (max_usec - min_usec)/2`; the map is symmetric
about the centre, `pulse 0 = centre_usec`, and any demand outside
`[-100, 100]` yields `centre_usec`. -/
theorem C6_rudder_mapping :
    RUDDER_CENTRE_PULSE_LENGTH_USEC =
      RUDDER_MIN_PULSE_LENGTH_USEC +
        (RUDDER_MAX_PULSE_LENGTH_USEC - RUDDER_MIN_PULSE_LENGTH_USEC) / 2 ∧
    (∀ v : ℚ, -100 ≤ v → v ≤ 100 →
      rudder_usec v =
        RUDDER_CENTRE_PULSE_LENGTH_USEC +
          v / 200 * (RUDDER_MAX_PULSE_LENGTH_USEC - RUDDER_MIN_PULSE_LENGTH_USEC)) ∧
    (∀ v : ℚ, -100 ≤ v → v ≤ 100 →
      rudder_usec v + rudder_usec (-v) = 2 * RUDDER_CENTRE_PULSE_LENGTH_USEC) ∧
    rudder_usec 0 = RUDDER_CENTRE_PULSE_LENGTH_USEC ∧
    (∀ v : ℚ, v < -100 ∨ 100 < v → rudder_usec v = RUDDER_CENTRE_PULSE_LENGTH_USEC) := by
  refine ⟨?_, ?_, ?_, ?_, ?_⟩
  · norm_num [RUDDER_CENTRE_PULSE_LENGTH_USEC, RUDDER_MIN_PULSE_LENGTH_USEC,
      RUDDER_MAX_PULSE_LENGTH_USEC]
  · intro v h0 h1
    simp only [rudder_usec, if_pos (And.intro h0 h1), RUDDER_RANGE_USEC,
      RUDDER_CENTRE_PULSE_LENGTH_USEC, RUDDER_MIN_PULSE_LENGTH_USEC,
      RUDDER_MAX_PULSE_LENGTH_USEC]
    ring
  · intro v h0 h1
    have h0n : -100 ≤ -v := by linarith
    have h1n : -v ≤ 100 := by linarith
    simp only [rudder_usec, if_pos (And.intro h0 h1), if_pos (And.intro h0n h1n),
      RUDDER_RANGE_USEC, RUDDER_CENTRE_PULSE_LENGTH_USEC,
      RUDDER_MIN_PULSE_LENGTH_USEC, RUDDER_MAX_PULSE_LENGTH_USEC]
    ring
  · norm_num [rudder_usec, RUDDER_RANGE_USEC, RUDDER_CENTRE_PULSE_LENGTH_USEC,
      RUDDER_MIN_PULSE_LENGTH_USEC, RUDDER_MAX_PULSE_LENGTH_USEC]
  · intro v hv
    have hneg : ¬ (-100 ≤ v ∧ v ≤ 100) := by
      rcases hv with h | h
      · exact fun hc => absurd hc.1 (not_le.mpr h)
      · exact fun hc => absurd hc.2 (not_le.mpr h)
    simp only [rudder_usec, if_neg hneg]

/-- Witness for C6 at concrete demands 60 (symmetry) and 250 (out of
range). -/
theorem C6_witness :
    (-100 : ℚ) ≤ 60 ∧ (60 : ℚ) ≤ 100 ∧
    rudder_usec 60 + rudder_usec (-60) = 2 * RUDDER_CENTRE_PULSE_LENGTH_USEC ∧
    rudder_usec 250 = RUDDER_CENTRE_PULSE_LENGTH_USEC :=
  ⟨by norm_num, by norm_num,
   C6_rudder_mapping.2.2.1 60 (by norm_num) (by norm_num),
   C6_rudder_mapping.2.2.2.2 250 (Or.inr (by norm_num))⟩

/-- Claim C7: in one actuation-loop body the rudder pulse depends only on the
rudder demand and the throttle pulse only on the throttle demand: demands
agreeing on one axis produce identical output on that axis, regardless of the
other axis (including out-of-range values there). -/
theorem C7_axis_independence :
    (∀ d1 d2 : ℚ × ℚ, d1.2 = d2.2 → (actIteration d1).2 = (actIteration d2).2) ∧
    (∀ d1 d2 : ℚ × ℚ, d1.1 = d2.1 → (actIteration d1).1 = (actIteration d2).1) := by
  constructor
  · intro d1 d2 h
    simp [actIteration, h]
  · intro d1 d2 h
    simp [actIteration, h]

/-- Witness for C7: an out-of-range throttle (500) leaves the rudder pulse
identical to that of an in-range demand with the same rudder value. -/
theorem C7_witness :
    ((500, 30) : ℚ × ℚ).2 = ((0, 30) : ℚ × ℚ).2 ∧
    (actIteration (500, 30)).2 = (actIteration (0, 30)).2 :=
  ⟨rfl, C7_axis_independence.1 (500, 30) (0, 30) rfl⟩


/-- Claim C1 (code bug evidence): a payload with no second comma token, such
as the single-field payload `"50"` or a whitespace-only payload `" "`, drives
`strtok` to return NULL and the code then calls `strtod(NULL, &eptr)` —
undefined behaviour (`none`), not a publish of zero Demand; a payload whose
two tokens merely fail numeric conversion, such as `"abc,def"`, does publish
`{0.0, 0.0}`. -/
theorem C1_missing_field_crashes :
    commsIteration (some "50") = none ∧
    commsIteration (some " ") = none ∧
    commsIteration (some ",") = none ∧
    commsIteration (some "abc,def") = some (0, 0) :=
  ⟨rfl, rfl, rfl, rfl⟩

/-- Claim C2: in any sequence of receive-loop iterations, every iteration
whose `recvfrom` outcome is `nbytes <= 0` (timeout or empty datagram)
publishes the zero demand `{0.0, 0.0}`; silence therefore re-publishes zero
on every timeout interval. -/
theorem C2_timeout_publishes_zero (rs : List (Option String)) (k : Nat)
    (h : rs[k]? = some none) :
    (rs.map commsIteration)[k]? = some (some (0, 0)) := by
  rw [List.getElem?_map, h]
  rfl

/-- Witness for C2: a run of two consecutive timeouts publishes zero demand
at both iterations. -/
theorem C2_witness :
    ([none, none] : List (Option String))[1]? = some none ∧
    (([none, none] : List (Option String)).map commsIteration)[1]? = some (some (0, 0)) :=
  ⟨rfl, C2_timeout_publishes_zero [none, none] 1 rfl⟩

/-- Claim C9: whenever the first two `strtok` tokens of the payload are
well-formed decimal numbers, the iteration publishes exactly the parsed pair
— verbatim, with no bounds validation — and any further tokens are ignored. -/
theorem C9_parse_publishes_verbatim (s t1 t2 : String) (rest : List String) (v1 v2 : ℚ)
    (htok : strtokTokens s = t1 :: t2 :: rest)
    (h1 : strtodFull t1 = some v1) (h2 : strtodFull t2 = some v2) :
    commsIteration (some s) = some (v1, v2) := by
  have hp : commsParse s = ParseResult.ok v1 v2 := by
    have h1m := strtodFull_strtodModel h1
    have h2m := strtodFull_strtodModel h2
    unfold commsParse
    rw [htok]
    show ParseResult.ok (strtodModel t1) (strtodModel t2) = ParseResult.ok v1 v2
    rw [h1m, h2m]
  show (match commsParse s with
        | ParseResult.ok t r => some (t, r)
        | ParseResult.crash => none) = some (v1, v2)
  rw [hp]

/-- Witness for C9: payload `"75,-20,99"` (an extra third field) publishes
exactly `{75.0, -20.0}`. -/
theorem C9_witness :
    strtokTokens "75,-20,99" = ["75", "-20", "99"] ∧
    commsIteration (some "75,-20,99") = some (75, -20) :=
  ⟨rfl,
   C9_parse_publishes_verbatim "75,-20,99" "75" "-20" ["99"] 75 (-20) rfl
     strtodFull_num75 strtodFull_negTwenty⟩

/-- Claim C3 (code bug evidence): a `bind` failure makes `commsThread` print
its diagnostic and return NULL — ending only that thread — while the return
value of `main` does not depend on the socket setup at all (it is `0` once
`rc_adc_init` and `rc_servo_init` have succeeded), so the process neither
exits non-zero nor stops actuating. -/
theorem C3_bind_failure_not_fatal :
    commsSetup true true true false = CommsSetupResult.threadReturn "bind socket failed" ∧
    mainExitCode true true = 0 :=
  ⟨rfl, rfl⟩

/-- Claim C4 (code bug evidence): `recvfrom` delivers at most
`BUFFER_SIZE = 20` bytes, and a datagram of 20 (or more) bytes makes it
return exactly 20 — whereupon the store `buffer[nbytes] = 0` targets index
20, out of bounds for the 20-byte buffer. -/
theorem C4_null_store_out_of_bounds :
    (∀ l : Nat, recvfromLen l ≤ BUFFER_SIZE) ∧
    recvfromLen 20 = 20 ∧
    ¬ nullStoreIndex (recvfromLen 20) < BUFFER_SIZE :=
  ⟨fun l => Nat.min_le_right l BUFFER_SIZE, rfl, by decide⟩

/-- Claim C8: on the unique shutdown path out of the RUNNING state the final
neutral pulse commands — `min_usec` on the throttle channel and `centre_usec`
on the rudder channel — are emitted (positions 1 and 2 of the trace) before
the power rail is released (position 4), and no power-rail release occurs
earlier in the trace. -/
theorem C8_neutral_before_power_off :
    shutdownTrace[1]? = some (Ev.pulse THROTTLE_SERVO THROTTLE_MIN_PULSE_LENGTH_USEC) ∧
    shutdownTrace[2]? = some (Ev.pulse RUDDER_SERVO RUDDER_CENTRE_PULSE_LENGTH_USEC) ∧
    shutdownTrace[4]? = some (Ev.powerRail false) ∧
    ∀ i : Fin 4, ∀ b : Bool, shutdownTrace[(i : Nat)]? ≠ some (Ev.powerRail b) := by
  refine ⟨rfl, rfl, rfl, ?_⟩
  intro i b
  fin_cases i <;> simp [shutdownTrace]

/-- Witness for C8 at the first trace position. -/
theorem C8_witness : shutdownTrace[0]? ≠ some (Ev.powerRail false) :=
  C8_neutral_before_power_off.2.2.2 0 false

/-- Claim C10: replaying any mutex-serialised schedule of publishes and
reads, every demand pair a read observes is either the initial pair or
exactly the pair of some single publish — never a throttle from one publish
paired with a rudder from another. -/
theorem C10_snapshot_consistency (init : ℚ × ℚ) (sched : List SharedOp) (x : ℚ × ℚ)
    (hx : x ∈ runShared init sched) :
    x = init ∨ SharedOp.publish x ∈ sched := by
  induction sched generalizing init with
  | nil => simp [runShared] at hx
  | cons op rest ih =>
    cases op with
    | publish d =>
      rcases ih d hx with h | h
      · subst h
        exact Or.inr (List.mem_cons_self _ _)
      · exact Or.inr (List.mem_cons_of_mem _ h)
    | read =>
      rcases List.mem_cons.mp hx with h | h
      · exact Or.inl h
      · rcases ih init h with h2 | h2
        · exact Or.inl h2
        · exact Or.inr (List.mem_cons_of_mem _ h2)

/-- Witness for C10: under the schedule publish `(1, 2)` then read, the read
observes `(1, 2)`, which is exactly the published pair. -/
theorem C10_witness :
    ((1, 2) : ℚ × ℚ) ∈ runShared (0, 0) [SharedOp.publish (1, 2), SharedOp.read] ∧
    (((1, 2) : ℚ × ℚ) = (0, 0) ∨
      SharedOp.publish ((1, 2) : ℚ × ℚ) ∈ [SharedOp.publish (1, 2), SharedOp.read]) := by
  have hmem : ((1, 2) : ℚ × ℚ) ∈ runShared (0, 0) [SharedOp.publish (1, 2), SharedOp.read] :=
    List.mem_singleton.mpr rfl
  exact ⟨hmem, C10_snapshot_consistency (0, 0) _ (1, 2) hmem⟩

end UdpServoControl
